import Mathlib

/-!
Verification of the hypno-chat-bot orchestration and parsing core.

The definitions below are a shallow embedding of the Python sources:
  * `src/hypnobot1/crew.py`      (`HypnoBot1Crew`: `_parse_qa_review`,
    `process_message`, `_create_tasks`)
  * `src/hypnobot/v2/hypnobot.py` (`HypnoBot`: `_parse_categorization`,
    `process_input`, `format_task_template`)
  * `src/hypnobot/crew/processes.py` (`HypnoChatProcess.process_message`)

Strings are modelled as Lean `String`/`List Char`; the Python regular
expressions used by the source are compiled by hand into explicit
left-to-right scanning functions with the same leftmost-match,
greedy/lazy and backtracking semantics (restricted to the ASCII inputs
the pipeline handles).  Backend (LLM) calls are opaque and are passed in
as `Except String String` values: `.ok s` is a completed call returning
text `s`, `.error e` is a call raising an exception whose `str()` is `e`.
-/

/-- Python whitespace for `str.strip` and the regex class `\s`
(ASCII: space, tab, newline, carriage return, vertical tab, form feed). -/
def isPySpace (c : Char) : Bool :=
  c = ' ' || c = '\t' || c = '\n' || c = '\r' || c = '\x0b' || c = '\x0c'

/-- Python `str.strip()` on the character list. -/
def pyStripList (l : List Char) : List Char :=
  ((l.dropWhile isPySpace).reverse.dropWhile isPySpace).reverse

/-- Python `str.strip()`. -/
def pyStrip (s : String) : String :=
  ⟨pyStripList s.data⟩

/-- Python `str.lower()` (ASCII). -/
def pyLower (s : String) : String :=
  ⟨s.data.map Char.toLower⟩

/-- Python `str.upper()` (ASCII). -/
def pyUpper (s : String) : String :=
  ⟨s.data.map Char.toUpper⟩

/-- Python substring containment `pat in hay` (contiguous substring). -/
def containsSub (pat : List Char) : List Char → Bool
  | [] => pat.isEmpty
  | c :: t => pat.isPrefixOf (c :: t) || containsSub pat t

/-- Case-insensitive literal match at the start of `s`; the pattern `pat`
is given in lowercase (models a `re.IGNORECASE` literal). -/
def ciPrefixOf : List Char → List Char → Bool
  | [], _ => true
  | _ :: _, [] => false
  | p :: ps, c :: cs => (c.toLower = p) && ciPrefixOf ps cs

/-- After a matched literal: regex `\s*"([^"]+)"` — skip whitespace, then a
quoted nonempty capture up to the next double quote.  Returns the capture
group, or `none` when the tail does not complete the pattern. -/
def wsQuoted (t : List Char) : Option (List Char) :=
  match t.dropWhile isPySpace with
  | [] => none
  | c :: u =>
    if c = '"' then
      let cap := u.takeWhile (fun d => d ≠ '"')
      if cap.isEmpty then none
      else
        match u.drop cap.length with
        | [] => none
        | _ :: _ => some cap
    else none

/-- Leftmost match of the case-insensitive literal `pat` followed by
`\s*"([^"]+)"`, as computed by `re.findall(..., re.IGNORECASE)[0]`. -/
def matchQuotedAfter (pat : List Char) : List Char → Option (List Char)
  | [] => none
  | c :: t =>
    match (if ciPrefixOf pat (c :: t) then wsQuoted ((c :: t).drop pat.length) else none) with
    | some cap => some cap
    | none => matchQuotedAfter pat t

/-- The lazy part `.*?:\s*"([^"]+)"` of the fourth response pattern:
skip the smallest number of non-newline characters up to a colon whose
tail completes `\s*"([^"]+)"`. -/
def lazyColonQuoted : List Char → Option (List Char)
  | [] => none
  | c :: t =>
    match (if c = ':' then wsQuoted t else none) with
    | some cap => some cap
    | none => if c = '\n' then none else lazyColonQuoted t

/-- The literal of the fourth response pattern (the phrase
"The assistant" + apostrophe + "s response"), lowercased for the
case-insensitive comparison. -/
def assistantLit : List Char :=
  "the assistant".data ++ ['\x27'] ++ "s response".data

/-- Leftmost match of the fourth response pattern: `assistantLit` then
`.*?:\s*"([^"]+)"` (`re.IGNORECASE`, no DOTALL). -/
def matchAssistantQuoted : List Char → Option (List Char)
  | [] => none
  | c :: t =>
    match (if ciPrefixOf assistantLit (c :: t) then
             lazyColonQuoted ((c :: t).drop assistantLit.length)
           else none) with
    | some cap => some cap
    | none => matchAssistantQuoted t

/-- The prioritized quoted-response patterns of `_parse_qa_review`
(lines 240-251 of `crew.py`), first match wins. -/
def extractQuoted (s : List Char) : Option (List Char) :=
  match matchQuotedAfter "response after review is:".data s with
  | some cap => some cap
  | none =>
    match matchQuotedAfter "response is:".data s with
    | some cap => some cap
    | none =>
      match matchQuotedAfter "response:".data s with
      | some cap => some cap
      | none => matchAssistantQuoted s

/-- One of the section headers of the case-sensitive split pattern
`\n\s*(?:Safety Level Assessment|Modifications|Reasoning):` starts here. -/
def headerAt (s : List Char) : Bool :=
  "Safety Level Assessment:".data.isPrefixOf s ||
  "Modifications:".data.isPrefixOf s ||
  "Reasoning:".data.isPrefixOf s

/-- First element of the section split on
`\n\s*(?:Safety Level Assessment|Modifications|Reasoning):` — the text
before the first split-pattern match (the whole text when the pattern
never matches). -/
def sectionBefore : List Char → List Char
  | [] => []
  | c :: t =>
    if c = '\n' && headerAt (t.dropWhile isPySpace) then []
    else c :: sectionBefore t

/-- Leftmost match of `pat` (case-insensitive literal) followed by
`\s*(\d)`; returns the value of the captured digit. -/
def matchDigitAfter (pat : List Char) : List Char → Option Nat
  | [] => none
  | c :: t =>
    match (if ciPrefixOf pat (c :: t) then
             (match ((c :: t).drop pat.length).dropWhile isPySpace with
              | d :: _ => if d.isDigit then some (d.toNat - 48) else none
              | [] => none)
           else none) with
    | some n => some n
    | none => matchDigitAfter pat t

/-- Safety-level extraction of `_parse_qa_review` (lines 263-273):
`Safety Level Assessment:\s*(\d)` first, then `Safety Level:\s*(\d)`. -/
def extractSafety (s : List Char) : Option Nat :=
  match matchDigitAfter "safety level assessment:".data s with
  | some n => some n
  | none => matchDigitAfter "safety level:".data s

/-- Terminator of the lazy modifications capture:
`(?:\n\n|\n\s*Reasoning|\Z)` (IGNORECASE, DOTALL). -/
def modTerminatorAt : List Char → Bool
  | [] => true
  | '\n' :: '\n' :: _ => true
  | '\n' :: t => ciPrefixOf "reasoning".data (t.dropWhile isPySpace)
  | _ => false

/-- Terminator of the lazy reasoning capture: `(?:\n\n|\Z)`. -/
def reasonTerminatorAt : List Char → Bool
  | [] => true
  | '\n' :: '\n' :: _ => true
  | _ => false

/-- Lazy capture `(.*?)` up to the first position where `isTerm` holds
(the alternation of the terminator always succeeds at end of input). -/
def lazyCaptureUntil (isTerm : List Char → Bool) : List Char → List Char
  | [] => []
  | c :: t => if isTerm (c :: t) then [] else c :: lazyCaptureUntil isTerm t

/-- Leftmost match of `Modifications:(.*?)(?:\n\n|\n\s*Reasoning|\Z)`
(IGNORECASE, DOTALL), returning the capture group. -/
def matchModAfter : List Char → Option (List Char)
  | [] => none
  | c :: t =>
    if ciPrefixOf "modifications:".data (c :: t) then
      some (lazyCaptureUntil modTerminatorAt ((c :: t).drop "modifications:".length))
    else matchModAfter t

/-- Leftmost match of `Reasoning:(.*?)(?:\n\n|\Z)` (IGNORECASE, DOTALL),
returning the capture group. -/
def matchReasonAfter : List Char → Option (List Char)
  | [] => none
  | c :: t =>
    if ciPrefixOf "reasoning:".data (c :: t) then
      some (lazyCaptureUntil reasonTerminatorAt ((c :: t).drop "reasoning:".length))
    else matchReasonAfter t

/-- The structured record built by `HypnoBot1Crew._parse_qa_review`. -/
structure ParsedReview where
  modified_response : String
  safety_level : Nat
  modifications : String
  reasoning : String
deriving Repr, DecidableEq

/-- The all-default record (`crew.py` lines 201-206). -/
def defaultReview : ParsedReview :=
  { modified_response := "", safety_level := 0, modifications := "", reasoning := "" }

/-- Primary-text extraction of `_parse_qa_review` (lines 236-261): the
prioritized quoted patterns, then the section-split fallback; an empty
stripped fallback leaves the default `""` (Python truthiness test). -/
def extractResponse (s : List Char) : String :=
  match extractQuoted s with
  | some cap => ⟨cap⟩
  | none => ⟨pyStripList (sectionBefore s)⟩

/-- `HypnoBot1Crew._parse_qa_review` on an actual string input
(`crew.py` lines 192-289; the body never raises — every regex failure
leaves the corresponding default in place). -/
def parse_qa_review_str (review_text : String) : ParsedReview :=
  if review_text = "" then defaultReview
  else
    { modified_response := extractResponse review_text.data
      safety_level := (extractSafety review_text.data).getD 0
      modifications := (matchModAfter review_text.data).map (fun c => ⟨pyStripList c⟩) |>.getD ""
      reasoning := (matchReasonAfter review_text.data).map (fun c => ⟨pyStripList c⟩) |>.getD "" }

/-- `HypnoBot1Crew._parse_qa_review` including the falsy guard
(`if not review_text: return result`): `none` models a `None`-valued
argument, `some s` a string argument (non-string objects reach the
string path through `str()` in the source). -/
def parse_qa_review : Option String → ParsedReview
  | none => defaultReview
  | some s => parse_qa_review_str s

/-- Python `str.split("\n")`: split on every newline, keeping empty parts
(the result list is never empty). -/
def splitNl : List Char → List (List Char)
  | [] => [[]]
  | '\n' :: t => [] :: splitNl t
  | c :: t =>
    match splitNl t with
    | [] => [[c]]
    | l :: ls => (c :: l) :: ls

/-- Python `"\n".join(lines)`. -/
def joinNl : List (List Char) → List Char
  | [] => []
  | [l] => l
  | l :: ls => l ++ '\n' :: joinNl ls

/-- `HypnoBot._parse_categorization` (`v2/hypnobot.py` lines 163-180):
strip, split on newlines, uppercase the first line as the category,
join the rest as the explanation, and test `"APPROPRIATE" in category`. -/
def parse_categorization (result : String) : Bool × String × String :=
  let lines := splitNl (pyStripList result.data)
  let category : String := ⟨(lines.headD []).map Char.toUpper⟩
  let explanation : String := if lines.length > 1 then ⟨joinNl lines.tail⟩ else ""
  let is_appropriate := containsSub "APPROPRIATE".data category.data
  (is_appropriate, category, explanation)

/-- The truncation applied by `HypnoBot.process_input` (lines 130-134):
inputs longer than 1500 characters are cut to their first 1500
characters plus `"..."`. -/
def truncateInput (user_input : String) : String :=
  if user_input.length > 1500 then ⟨user_input.data.take 1500⟩ ++ "..." else user_input

/-- The rejection message of `HypnoBot.process_input` (line 146). -/
def rejectionMessage (category explanation : String) : String :=
  "I\x27m sorry, but I can\x27t assist with this request.\n\nCategory: " ++
    category ++ "\nReason: " ++ explanation

/-- The `except` message of `HypnoBot.process_input` (line 161). -/
def processErrorMessage (e : String) : String :=
  "I\x27m sorry, I encountered an error while processing your request: " ++ e

/-- The truncation note appended on line 154 of `v2/hypnobot.py`. -/
def truncationNote (original_length : Nat) : String :=
  "\n\n(Note: Your message was truncated from " ++ toString original_length ++
    " to 1500 characters for processing.)"

/-- Observable outcome of one `HypnoBot.process_input` call: the returned
string, the input handed to the categorization task, and how many times
the full crew (every non-gating agent) was kicked off. -/
structure ProcessTrace where
  response : String
  catInput : String
  crewCalls : Nat
deriving Repr, DecidableEq

/-- `HypnoBot.process_input` (`v2/hypnobot.py` lines 119-161).
`categorize` models `categorization_task.execute`, `crew` models
`self.crew.kickoff`; both receive the (possibly truncated) input and
either return text or raise. -/
def process_input (user_input : String)
    (categorize : String → Except String String)
    (crew : String → Except String String) : ProcessTrace :=
  let original_length := user_input.length
  let input := truncateInput user_input
  match categorize input with
  | .error e => { response := processErrorMessage e, catInput := input, crewCalls := 0 }
  | .ok catResult =>
    let parsed := parse_categorization catResult
    if !parsed.1 then
      { response := rejectionMessage parsed.2.1 parsed.2.2, catInput := input, crewCalls := 0 }
    else
      match crew input with
      | .error e => { response := processErrorMessage e, catInput := input, crewCalls := 1 }
      | .ok result =>
        let result := if original_length > 1500 then result ++ truncationNote original_length
                      else result
        { response := result, catInput := input, crewCalls := 1 }

/-- Python `str.replace(pat, rep)`: replace every occurrence of `pat`,
scanning left to right without overlap.  (The source only ever calls it
with the nonempty pattern `"\x7b" ++ key ++ "\x7d"`.) -/
def replaceList (pat rep : List Char) : List Char → List Char
  | [] => []
  | c :: t =>
    if h : pat ≠ [] ∧ pat.isPrefixOf (c :: t) then
      rep ++ replaceList pat rep ((c :: t).drop pat.length)
    else c :: replaceList pat rep t
termination_by s => s.length
decreasing_by
  · have hp : 0 < pat.length := List.length_pos.mpr h.1
    simp only [List.length_drop, List.length_cons]
    omega
  · simp

/-- `HypnoBot.format_task_template` (`v2/hypnobot.py` lines 182-198):
for each key/value pair, replace the literal `\x7bkey\x7d` in the
description; pairs are applied in mapping-iteration order. -/
def format_task_template (task_description : String)
    (inputs : List (String × String)) : String :=
  inputs.foldl
    (fun d kv => ⟨replaceList ("\x7b".data ++ kv.1.data ++ "\x7d".data) kv.2.data d.data⟩)
    task_description

/-- The result dictionary of `HypnoBot1Crew.process_message`
(`crew.py` lines 433-442, 481-493 and 497-503); the token-usage and
cost fields are opaque diagnostics and are omitted. -/
structure HB1Result where
  original_response : String
  final_response : String
  safety_level : Nat
  md_error : Option String
  md_modifications : Option String
  md_reasoning : Option String
  md_review_skipped : Bool
deriving Repr, DecidableEq

/-- The degraded result of the outer `except` handler of
`HypnoBot1Crew.process_message` (lines 495-504). -/
def hb1ErrorResult (e : String) : HB1Result :=
  { original_response := ""
    final_response := "I apologize, but I encountered an issue processing your message. Please try again."
    safety_level := 2
    md_error := some e
    md_modifications := none
    md_reasoning := none
    md_review_skipped := false }

/-- `HypnoBot1Crew.process_message` (`crew.py` lines 363-504).
`haveInquiryTask` models `_create_tasks` producing the inquiry task,
`haveReviewTask` models it producing the review task on the second call;
`inquiryCall` models `inquiry_crew.kickoff()` and `fullCall` models the
two-task `crew.kickoff()`.  Any raise lands in the outer `except`. -/
def hb1_process_message (haveInquiryTask : Bool)
    (inquiryCall : Except String String)
    (haveReviewTask : Bool)
    (fullCall : Except String String) : HB1Result :=
  if !haveInquiryTask then hb1ErrorResult "Failed to create inquiry task"
  else
    match inquiryCall with
    | .error e => hb1ErrorResult e
    | .ok inquiry_text =>
      if !haveReviewTask then
        { original_response := inquiry_text
          final_response := inquiry_text
          safety_level := 0
          md_error := none
          md_modifications := none
          md_reasoning := none
          md_review_skipped := true }
      else
        match fullCall with
        | .error e => hb1ErrorResult e
        | .ok result =>
          let parsed := parse_qa_review_str result
          let final_response :=
            if pyStrip parsed.modified_response = "" then inquiry_text
            else parsed.modified_response
          { original_response := inquiry_text
            final_response := final_response
            safety_level := parsed.safety_level
            md_error := none
            md_modifications := some parsed.modifications
            md_reasoning := some parsed.reasoning
            md_review_skipped := false }

/-- The result dictionary of `HypnoChatProcess.process_message`
(`processes.py` lines 104-164). -/
structure HCPResult where
  original_response : String
  final_response : String
  safety_level : Nat
  md_error : Option String
  md_review_result : Option String
deriving Repr, DecidableEq

/-- `HypnoChatProcess.process_message` (`processes.py` lines 86-164).
`chatCall` models the chat crew kickoff plus text extraction,
`reviewCall` models the review-task construction and review crew
kickoff; the review step has its own inner `except` handler. -/
def hcp_process_message (chatCall : Except String String)
    (reviewCall : Except String String) : HCPResult :=
  match chatCall with
  | .error e =>
    { original_response := ""
      final_response := "I apologize, but I encountered an issue processing your message. Please try again."
      safety_level := 2
      md_error := some e
      md_review_result := none }
  | .ok chat_result =>
    if pyStrip chat_result = "" then
      { original_response := ""
        final_response := "I apologize, but I couldn\x27t generate a response. Please try again."
        safety_level := 2
        md_error := some "Empty chat result"
        md_review_result := none }
    else
      match reviewCall with
      | .error e =>
        { original_response := chat_result
          final_response := chat_result
          safety_level := 1
          md_error := some ("Review error: " ++ e)
          md_review_result := none }
      | .ok review_result =>
        let safety_level :=
          if containsSub "unsafe".data (pyLower review_result).data then 2
          else if containsSub "caution".data (pyLower review_result).data then 1
          else 0
        { original_response := chat_result
          final_response := chat_result
          safety_level := safety_level
          md_error := none
          md_review_result := some review_result }

/-- The review text of the spec scenario for the 2-task chain, exactly as
the spec gives it (a single line, no newlines). -/
def scenarioReviewText : String :=
  "The assistant\x27s response after review is: \"Hypnotherapy is calming.\" Safety Level Assessment: 0 Modifications: none Reasoning: clear and accurate"

/-- C1: the claim fails on the code. On the categorization result
"INAPPROPRIATE: violence" the source computes
`is_appropriate = ("APPROPRIATE" in category)`, and "APPROPRIATE" is a
substring of the uppercased first line "INAPPROPRIATE: VIOLENCE", so the
query is approved; the two labels are exactly confused via substring
overlap (while a plain "APPROPRIATE" label is, correctly, approved). -/
theorem c1_inappropriate_label_is_approved :
    (parse_categorization "INAPPROPRIATE: violence").1 = true ∧
    (parse_categorization "INAPPROPRIATE: violence").2.1 = "INAPPROPRIATE: VIOLENCE" ∧
    (parse_categorization "APPROPRIATE\nGood question").1 = true := by
  decide

/-- C2: the claim fails on the code. `_parse_qa_review` extracts a single
digit after "Safety Level:" with no clamping, so the input
"Safety Level: 9" parses to `safety_level = 9`, outside `\x7b0,...,4\x7d`. -/
theorem c2_safety_level_nine_propagates :
    (parse_qa_review_str "Safety Level: 9").safety_level = 9 := by
  decide

/-- C5 counterexample: on the exact scenario review text the assembled
result does not have `metadata.modifications = "none"`: the modifications
capture only stops at a blank line, at a newline followed by "Reasoning",
or at the end of text, and the scenario text is a single line, so the
capture runs to the end of the text. -/
theorem c5_counterexample :
    (hb1_process_message true (Except.ok "draft") true
        (Except.ok scenarioReviewText)).md_modifications ≠ some "none" := by
  decide

/-- C5 amended: for any inquiry text, running the 2-task chain on the
scenario review text yields `final_response = "Hypnotherapy is calming."`
and `safety_level = 0` as claimed, but
`metadata.modifications = "none Reasoning: clear and accurate"` — the
modifications capture extends to the end of the single-line text because
the "Reasoning:" header is not preceded by a newline there. -/
theorem c5_scenario_assembly (inquiry : String) :
    (hb1_process_message true (Except.ok inquiry) true
        (Except.ok scenarioReviewText)).final_response = "Hypnotherapy is calming." ∧
    (hb1_process_message true (Except.ok inquiry) true
        (Except.ok scenarioReviewText)).safety_level = 0 ∧
    (hb1_process_message true (Except.ok inquiry) true
        (Except.ok scenarioReviewText)).md_modifications =
      some "none Reasoning: clear and accurate" := by
  have hp : parse_qa_review_str scenarioReviewText =
      { modified_response := "Hypnotherapy is calming."
        safety_level := 0
        modifications := "none Reasoning: clear and accurate"
        reasoning := "clear and accurate" } := by decide
  have hs : pyStrip "Hypnotherapy is calming." = "" ↔ False := by decide
  simp [hb1_process_message, hp, hs]

/-- C8: `_parse_qa_review` returns the all-default record on the empty
string and on a `None`-valued argument: primary text `""`, safety level
`0`, modifications `""`, reasoning `""`. -/
theorem c8_empty_and_none_defaults :
    parse_qa_review none = defaultReview ∧
    parse_qa_review (some "") = defaultReview ∧
    defaultReview.modified_response = "" ∧
    defaultReview.safety_level = 0 ∧
    defaultReview.modifications = "" ∧
    defaultReview.reasoning = "" := by
  decide

/-- C3: when the parsed categorization label is not approved,
`process_input` returns the rejection message built from the parsed
category and explanation and the full crew (all non-gating agents) is
never kicked off. -/
theorem c3_gate_short_circuit (user_input catResult : String)
    (categorize crew : String → Except String String)
    (hcat : categorize (truncateInput user_input) = Except.ok catResult)
    (hrej : (parse_categorization catResult).1 = false) :
    (process_input user_input categorize crew).crewCalls = 0 ∧
    (process_input user_input categorize crew).response =
      rejectionMessage (parse_categorization catResult).2.1
        (parse_categorization catResult).2.2 := by
  unfold process_input
  simp [hcat, hrej]

/-- C3 witness: a concrete rejected categorization shows the
short-circuit hypotheses are satisfiable. -/
theorem c3_gate_short_circuit_witness :
    (process_input "hi" (fun _ => Except.ok "OFF_TOPIC\nnope")
        (fun _ => Except.ok "resp")).crewCalls = 0 ∧
    (process_input "hi" (fun _ => Except.ok "OFF_TOPIC\nnope")
        (fun _ => Except.ok "resp")).response = rejectionMessage "OFF_TOPIC" "nope" := by
  have h := c3_gate_short_circuit "hi" "OFF_TOPIC\nnope"
    (fun _ => Except.ok "OFF_TOPIC\nnope") (fun _ => Except.ok "resp") rfl (by decide)
  exact ⟨h.1, h.2.trans (by decide)⟩

/-- C7: the review parser is a total function into `ParsedReview`
(matching the catch-all handler in the source, which can never see an
exception from the string path), and every field whose pattern fails to
match degrades to its default value; a `None` input yields the
all-default record. -/
theorem c7_parser_degrades_to_defaults (s : String) :
    ((extractSafety s.data = none → (parse_qa_review (some s)).safety_level = 0) ∧
     (matchModAfter s.data = none → (parse_qa_review (some s)).modifications = "") ∧
     (matchReasonAfter s.data = none → (parse_qa_review (some s)).reasoning = "") ∧
     (extractQuoted s.data = none → pyStripList (sectionBefore s.data) = [] →
        (parse_qa_review (some s)).modified_response = "")) ∧
    parse_qa_review none = defaultReview := by
  refine ⟨?_, rfl⟩
  by_cases hs : s = ""
  · subst hs
    exact ⟨fun _ => rfl, fun _ => rfl, fun _ => rfl, fun _ _ => rfl⟩
  · refine ⟨?_, ?_, ?_, ?_⟩
    · intro h
      simp [parse_qa_review, parse_qa_review_str, hs, h]
    · intro h
      simp [parse_qa_review, parse_qa_review_str, hs, h]
    · intro h
      simp [parse_qa_review, parse_qa_review_str, hs, h]
    · intro hq hsec
      simp [parse_qa_review, parse_qa_review_str, hs, extractResponse, hq, hsec]

/-- C7 witness: a concrete input on which every extraction pattern fails
parses to the all-default record. -/
theorem c7_parser_degrades_witness :
    (parse_qa_review (some "\nSafety Level Assessment: none")).safety_level = 0 ∧
    (parse_qa_review (some "\nSafety Level Assessment: none")).modifications = "" ∧
    (parse_qa_review (some "\nSafety Level Assessment: none")).reasoning = "" ∧
    (parse_qa_review (some "\nSafety Level Assessment: none")).modified_response = "" := by
  have h := c7_parser_degrades_to_defaults "\nSafety Level Assessment: none"
  exact ⟨h.1.1 (by decide), h.1.2.1 (by decide), h.1.2.2.1 (by decide),
    h.1.2.2.2 (by decide) (by decide)⟩

/-- C10: every result of `HypnoChatProcess.process_message` has
`safety_level ≤ 2` (never 3 or 4): 2 on a chat-step error, on an empty
chat result, or when the review text contains "unsafe"
(case-insensitively); 1 on a review-step error or when the review text
contains "caution" but not "unsafe"; 0 otherwise. -/
theorem c10_safety_levels (chatCall reviewCall : Except String String) :
    (hcp_process_message chatCall reviewCall).safety_level ≤ 2 ∧
    (∀ e, chatCall = Except.error e →
       (hcp_process_message chatCall reviewCall).safety_level = 2) ∧
    (∀ s, chatCall = Except.ok s → pyStrip s = "" →
       (hcp_process_message chatCall reviewCall).safety_level = 2) ∧
    (∀ s e, chatCall = Except.ok s → pyStrip s ≠ "" → reviewCall = Except.error e →
       (hcp_process_message chatCall reviewCall).safety_level = 1) ∧
    (∀ s r, chatCall = Except.ok s → pyStrip s ≠ "" → reviewCall = Except.ok r →
       containsSub "unsafe".data (pyLower r).data = true →
       (hcp_process_message chatCall reviewCall).safety_level = 2) ∧
    (∀ s r, chatCall = Except.ok s → pyStrip s ≠ "" → reviewCall = Except.ok r →
       containsSub "unsafe".data (pyLower r).data = false →
       containsSub "caution".data (pyLower r).data = true →
       (hcp_process_message chatCall reviewCall).safety_level = 1) ∧
    (∀ s r, chatCall = Except.ok s → pyStrip s ≠ "" → reviewCall = Except.ok r →
       containsSub "unsafe".data (pyLower r).data = false →
       containsSub "caution".data (pyLower r).data = false →
       (hcp_process_message chatCall reviewCall).safety_level = 0) := by
  refine ⟨?_, ?_, ?_, ?_, ?_, ?_, ?_⟩
  · cases chatCall with
    | error e => simp [hcp_process_message]
    | ok s =>
      by_cases h : pyStrip s = ""
      · simp [hcp_process_message, h]
      · cases reviewCall with
        | error e => simp [hcp_process_message, h]
        | ok r =>
          by_cases hu : containsSub "unsafe".data (pyLower r).data = true <;>
            by_cases hc : containsSub "caution".data (pyLower r).data = true <;>
              simp [hcp_process_message, h, hu, hc]
  · intro e he
    subst he
    simp [hcp_process_message]
  · intro s hs he
    subst hs
    simp [hcp_process_message, he]
  · intro s e hs hne hr
    subst hs
    subst hr
    simp [hcp_process_message, hne]
  · intro s r hs hne hr hu
    subst hs
    subst hr
    simp [hcp_process_message, hne, hu]
  · intro s r hs hne hr hu hc
    subst hs
    subst hr
    simp [hcp_process_message, hne, hu, hc]
  · intro s r hs hne hr hu hc
    subst hs
    subst hr
    simp [hcp_process_message, hne, hu, hc]

/-- C10 witness: a concrete run whose review text contains "Unsafe"
gets safety level 2, within the bound. -/
theorem c10_safety_levels_witness :
    (hcp_process_message (Except.ok "Hello") (Except.ok "This looks Unsafe")).safety_level = 2 ∧
    (hcp_process_message (Except.ok "Hello") (Except.ok "This looks Unsafe")).safety_level ≤ 2 := by
  have h := c10_safety_levels (Except.ok "Hello") (Except.ok "This looks Unsafe")
  exact ⟨h.2.2.2.2.1 "Hello" "This looks Unsafe" rfl (by decide) rfl (by decide), h.1⟩

/-- C4 counterexample: in `HypnoChatProcess.process_message`, a backend
error raised by the second (review) task does not produce
`safety_level = 2` with empty `original_response` — the inner handler
returns `safety_level = 1` and keeps the chat result. -/
theorem c4_counterexample :
    ¬((hcp_process_message (Except.ok "Hello!")
          (Except.error "BackendError")).safety_level = 2 ∧
      (hcp_process_message (Except.ok "Hello!")
          (Except.error "BackendError")).original_response = "") ∧
    (hcp_process_message (Except.ok "Hello!")
        (Except.error "BackendError")).safety_level = 1 := by
  decide

/-- C4 amended: neither implementation raises. In
`HypnoBot1Crew.process_message` a failure of any task crew (first or
second kickoff) yields the fixed degraded result: `safety_level = 2`,
non-empty apologetic `final_response`, `metadata.error` set to the error
description and `original_response = ""`.  In
`HypnoChatProcess.process_message` the same holds for a failure of the
chat step, but a failure of the review (second) step instead yields
`safety_level = 1`, keeps the chat result as both `original_response`
and `final_response`, and sets `metadata.error` to the prefixed
description. -/
theorem c4_graceful_degradation :
    (∀ (e : String) (haveReview : Bool) (fullCall : Except String String),
       hb1_process_message true (Except.error e) haveReview fullCall = hb1ErrorResult e) ∧
    (∀ (inquiry e : String),
       hb1_process_message true (Except.ok inquiry) true (Except.error e) =
         hb1ErrorResult e) ∧
    (∀ e : String,
       (hb1ErrorResult e).safety_level = 2 ∧
       (hb1ErrorResult e).final_response ≠ "" ∧
       (hb1ErrorResult e).md_error = some e ∧
       (hb1ErrorResult e).original_response = "") ∧
    (∀ (e : String) (reviewCall : Except String String),
       (hcp_process_message (Except.error e) reviewCall).safety_level = 2 ∧
       (hcp_process_message (Except.error e) reviewCall).final_response ≠ "" ∧
       (hcp_process_message (Except.error e) reviewCall).md_error = some e ∧
       (hcp_process_message (Except.error e) reviewCall).original_response = "") ∧
    (∀ (chat e : String), pyStrip chat ≠ "" →
       (hcp_process_message (Except.ok chat) (Except.error e)).safety_level = 1 ∧
       (hcp_process_message (Except.ok chat) (Except.error e)).original_response = chat ∧
       (hcp_process_message (Except.ok chat) (Except.error e)).final_response = chat ∧
       (hcp_process_message (Except.ok chat) (Except.error e)).md_error =
         some ("Review error: " ++ e)) := by
  refine ⟨?_, ?_, ?_, ?_, ?_⟩
  · intro e haveReview fullCall
    simp [hb1_process_message]
  · intro inquiry e
    simp [hb1_process_message]
  · intro e
    refine ⟨rfl, ?_, rfl, rfl⟩
    simp [hb1ErrorResult]
  · intro e reviewCall
    refine ⟨rfl, ?_, rfl, rfl⟩
    simp [hcp_process_message]
  · intro chat e h
    simp [hcp_process_message, h]

/-- C4 witness: concrete failing calls exercise both the HypnoBot1Crew
second-task error path and the HypnoChatProcess review error path. -/
theorem c4_graceful_degradation_witness :
    hb1_process_message true (Except.ok "draft") true (Except.error "BackendError") =
      hb1ErrorResult "BackendError" ∧
    (hcp_process_message (Except.ok "Hello") (Except.error "BackendError")).safety_level = 1 := by
  have h := c4_graceful_degradation
  exact ⟨h.2.1 "draft" "BackendError", (h.2.2.2.2 "Hello" "BackendError" (by decide)).1⟩

/-- C9: `process_input` leaves inputs of at most 1500 characters
unchanged; a longer input is truncated to its first 1500 characters plus
"..." before the categorization task runs, and on an approved query with
a successful crew run the returned response carries the note stating the
original and truncated lengths. -/
theorem c9_truncation (user_input : String)
    (categorize crew : String → Except String String) :
    (user_input.length ≤ 1500 →
       (process_input user_input categorize crew).catInput = user_input) ∧
    (1500 < user_input.length →
       (process_input user_input categorize crew).catInput =
         String.mk (user_input.data.take 1500) ++ "..." ∧
       (∀ catResult result,
          categorize (String.mk (user_input.data.take 1500) ++ "...") =
            Except.ok catResult →
          (parse_categorization catResult).1 = true →
          crew (String.mk (user_input.data.take 1500) ++ "...") = Except.ok result →
          (process_input user_input categorize crew).response =
            result ++ truncationNote user_input.length)) := by
  have hci : (process_input user_input categorize crew).catInput =
      truncateInput user_input := by
    unfold process_input
    cases hc : categorize (truncateInput user_input) with
    | error e => simp [hc]
    | ok c =>
      by_cases hp : (parse_categorization c).1 = true
      · cases hk : crew (truncateInput user_input) with
        | error e => simp [hc, hp, hk]
        | ok r => simp [hc, hp, hk]
      · simp [hc, Bool.eq_false_iff.mpr hp]
  constructor
  · intro h
    have ht : truncateInput user_input = user_input := by
      simp [truncateInput, Nat.not_lt.mpr h]
    rw [hci, ht]
  · intro h
    have ht : truncateInput user_input = String.mk (user_input.data.take 1500) ++ "..." := by
      simp [truncateInput, h]
    refine ⟨by rw [hci, ht], ?_⟩
    intro catResult result hcat happ hcrew
    rw [← ht] at hcat hcrew
    unfold process_input
    simp [hcat, happ, hcrew, h]

/-- `List.isPrefixOf` accepts an initial copy of the list itself. -/
theorem isPrefixOf_self_append (l t : List Char) : l.isPrefixOf (l ++ t) = true := by
  induction l with
  | nil => cases t <;> rfl
  | cons c cs ih => simpa [List.isPrefixOf] using ih

/-- One scan step of `replaceList` past a non-matching head. -/
theorem replaceList_cons_skip (pat rep : List Char) {c : Char} {t : List Char}
    (h : pat.isPrefixOf (c :: t) = false) :
    replaceList pat rep (c :: t) = c :: replaceList pat rep t := by
  simp only [replaceList]
  rw [dif_neg]
  simp [h]

/-- `replaceList` walks unchanged over a segment that does not contain
the first character of the pattern. -/
theorem replaceList_append_of_not_mem (p : Char) (ps rep : List Char) :
    ∀ A s : List Char, p ∉ A →
      replaceList (p :: ps) rep (A ++ s) = A ++ replaceList (p :: ps) rep s := by
  intro A
  induction A with
  | nil => intro s _; rfl
  | cons a A ih =>
    intro s hA
    rw [List.mem_cons, not_or] at hA
    have hbeq : (p == a) = false := beq_eq_false_iff_ne.mpr hA.1
    have hpre : (p :: ps).isPrefixOf (a :: (A ++ s)) = false := by
      simp [List.isPrefixOf, hbeq]
    rw [List.cons_append, replaceList_cons_skip _ _ hpre, ih s hA.2]
    rfl

/-- `replaceList` replaces a match sitting at the head of the text and
continues after it (the replacement text is not rescanned). -/
theorem replaceList_head_match (p : Char) (ps rep s : List Char) :
    replaceList (p :: ps) rep ((p :: ps) ++ s) = rep ++ replaceList (p :: ps) rep s := by
  rw [List.cons_append]
  simp only [replaceList]
  rw [dif_pos ⟨List.cons_ne_nil p ps,
    by simpa using isPrefixOf_self_append (p :: ps) s⟩]
  congr 1
  congr 1
  simp [List.drop_left]

/-- `replaceList` is the identity on text that never contains the first
character of the pattern. -/
theorem replaceList_of_not_mem (p : Char) (ps rep : List Char) (s : List Char)
    (hs : p ∉ s) : replaceList (p :: ps) rep s = s := by
  have h := replaceList_append_of_not_mem p ps rep s [] hs
  simpa [replaceList] using h

/-- Substituting the bound name in a two-placeholder template: the
segments around the placeholders never contain a left brace, so exactly
the `user_input` placeholder is replaced and the `task_1` placeholder is
scanned over unchanged. -/
theorem replace_template_pass1 (A B C v1 : List Char)
    (hA : '\x7b' ∉ A) (hB : '\x7b' ∉ B) (hC : '\x7b' ∉ C) :
    replaceList "\x7buser_input\x7d".data v1
      (A ++ ("\x7buser_input\x7d".data ++ (B ++ ("\x7btask_1\x7d".data ++ C)))) =
    A ++ (v1 ++ (B ++ ("\x7btask_1\x7d".data ++ C))) := by
  show replaceList ('\x7b' :: "user_input\x7d".data) v1
      (A ++ (('\x7b' :: "user_input\x7d".data) ++ (B ++ (('\x7b' :: "task_1\x7d".data) ++ C)))) =
    A ++ (v1 ++ (B ++ (('\x7b' :: "task_1\x7d".data) ++ C)))
  rw [replaceList_append_of_not_mem _ _ _ A _ hA]
  rw [replaceList_head_match]
  rw [replaceList_append_of_not_mem _ _ _ B _ hB]
  have hut : (('u' : Char) == 't') = false := rfl
  have hstep : ('\x7b' :: "user_input\x7d".data).isPrefixOf
      ('\x7b' :: ("task_1\x7d".data ++ C)) = false := by
    have h2 : "user_input\x7d".data = 'u' :: "ser_input\x7d".data := rfl
    have h3 : "task_1\x7d".data ++ C = 't' :: ("ask_1\x7d".data ++ C) := rfl
    rw [h2, h3]
    simp [List.isPrefixOf, hut]
  rw [show (('\x7b' :: "task_1\x7d".data) ++ C) = '\x7b' :: ("task_1\x7d".data ++ C)
      from rfl]
  rw [replaceList_cons_skip _ _ hstep]
  have hnotmem : '\x7b' ∉ "task_1\x7d".data ++ C := by
    intro hmem
    rcases List.mem_append.mp hmem with h | h
    · exact (by decide : '\x7b' ∉ "task_1\x7d".data) h
    · exact hC h
  rw [replaceList_of_not_mem _ _ _ _ hnotmem]

/-- Substituting the second binding after the first has been applied:
only the `task_1` placeholder is left and it is replaced. -/
theorem replace_template_pass2 (A B C v1 v2 : List Char)
    (hA : '\x7b' ∉ A) (hB : '\x7b' ∉ B) (hC : '\x7b' ∉ C) (hv1 : '\x7b' ∉ v1) :
    replaceList "\x7btask_1\x7d".data v2
      (A ++ (v1 ++ (B ++ ("\x7btask_1\x7d".data ++ C)))) =
    A ++ (v1 ++ (B ++ (v2 ++ C))) := by
  show replaceList ('\x7b' :: "task_1\x7d".data) v2
      (A ++ (v1 ++ (B ++ (('\x7b' :: "task_1\x7d".data) ++ C)))) =
    A ++ (v1 ++ (B ++ (v2 ++ C)))
  rw [replaceList_append_of_not_mem _ _ _ A _ hA]
  rw [replaceList_append_of_not_mem _ _ _ v1 _ hv1]
  rw [replaceList_append_of_not_mem _ _ _ B _ hB]
  rw [replaceList_head_match]
  rw [replaceList_of_not_mem _ _ _ C hC]

/-- C6 counterexample: rendering a template whose `task_1` placeholder is
not bound in the context neither raises any error (the function is total
and returns a string) nor removes the placeholder — the literal
`\x7btask_1\x7d` remains in the text delivered to the agent. -/
theorem c6_counterexample :
    format_task_template "\x7buser_input\x7d and \x7btask_1\x7d"
      [("user_input", "hello")] = "hello and \x7btask_1\x7d" ∧
    containsSub "\x7btask_1\x7d".data
      (format_task_template "\x7buser_input\x7d and \x7btask_1\x7d"
        [("user_input", "hello")]).data = true := by
  have e1 : format_task_template "\x7buser_input\x7d and \x7btask_1\x7d"
      [("user_input", "hello")] =
      ⟨replaceList "\x7buser_input\x7d".data "hello".data
        ([] ++ ("\x7buser_input\x7d".data ++ (" and ".data ++ ("\x7btask_1\x7d".data ++ []))))⟩ :=
    rfl
  have e2 := replace_template_pass1 [] " and ".data [] "hello".data
    (by decide) (by decide) (by decide)
  rw [e1, e2]
  constructor
  · rfl
  · decide

/-- C6 amended: `format_task_template` substitutes every placeholder
whose name is bound in the inputs with its literal value, but an
unresolved placeholder for an unbound name simply remains literally in
the rendered text — no `ConfigurationError` (or any failure) exists on
this path.  Stated for templates `A\x7buser_input\x7dB\x7btask_1\x7dC`
whose fixed segments and substituted values contain no left brace. -/
theorem c6_placeholder_rendering (A B C v1 v2 : List Char)
    (hA : '\x7b' ∉ A) (hB : '\x7b' ∉ B) (hC : '\x7b' ∉ C) (hv1 : '\x7b' ∉ v1) :
    format_task_template ⟨A ++ "\x7buser_input\x7d".data ++ B ++ "\x7btask_1\x7d".data ++ C⟩
      [("user_input", ⟨v1⟩), ("task_1", ⟨v2⟩)] = ⟨A ++ v1 ++ B ++ v2 ++ C⟩ ∧
    format_task_template ⟨A ++ "\x7buser_input\x7d".data ++ B ++ "\x7btask_1\x7d".data ++ C⟩
      [("user_input", ⟨v1⟩)] = ⟨A ++ v1 ++ B ++ "\x7btask_1\x7d".data ++ C⟩ := by
  have hT : ((A ++ "\x7buser_input\x7d".data) ++ B) ++ "\x7btask_1\x7d".data ++ C =
      A ++ ("\x7buser_input\x7d".data ++ (B ++ ("\x7btask_1\x7d".data ++ C))) := by
    simp [List.append_assoc]
  constructor
  · have e1 : format_task_template
        ⟨A ++ "\x7buser_input\x7d".data ++ B ++ "\x7btask_1\x7d".data ++ C⟩
        [("user_input", ⟨v1⟩), ("task_1", ⟨v2⟩)] =
        ⟨replaceList "\x7btask_1\x7d".data v2
          (replaceList "\x7buser_input\x7d".data v1
            (((A ++ "\x7buser_input\x7d".data) ++ B) ++ "\x7btask_1\x7d".data ++ C))⟩ := rfl
    refine e1.trans (congrArg String.mk ?_)
    rw [hT, replace_template_pass1 A B C v1 hA hB hC,
      replace_template_pass2 A B C v1 v2 hA hB hC hv1]
    simp [List.append_assoc]
  · have e2 : format_task_template
        ⟨A ++ "\x7buser_input\x7d".data ++ B ++ "\x7btask_1\x7d".data ++ C⟩
        [("user_input", ⟨v1⟩)] =
        ⟨replaceList "\x7buser_input\x7d".data v1
          (((A ++ "\x7buser_input\x7d".data) ++ B) ++ "\x7btask_1\x7d".data ++ C)⟩ := rfl
    refine e2.trans (congrArg String.mk ?_)
    rw [hT, replace_template_pass1 A B C v1 hA hB hC]
    simp [List.append_assoc]

/-- C6 witness: a concrete template and context exercise both renderings. -/
theorem c6_placeholder_rendering_witness :
    format_task_template
      ⟨"Answer ".data ++ "\x7buser_input\x7d".data ++ " given ".data ++
        "\x7btask_1\x7d".data ++ ".".data⟩
      [("user_input", ⟨"hi".data⟩), ("task_1", ⟨"prior".data⟩)] =
      ⟨"Answer ".data ++ "hi".data ++ " given ".data ++ "prior".data ++ ".".data⟩ ∧
    format_task_template
      ⟨"Answer ".data ++ "\x7buser_input\x7d".data ++ " given ".data ++
        "\x7btask_1\x7d".data ++ ".".data⟩
      [("user_input", ⟨"hi".data⟩)] =
      ⟨"Answer ".data ++ "hi".data ++ " given ".data ++ "\x7btask_1\x7d".data ++ ".".data⟩ := by
  have h := c6_placeholder_rendering "Answer ".data " given ".data ".".data
    "hi".data "prior".data (by decide) (by decide) (by decide) (by decide)
  exact ⟨h.1, h.2⟩

/-- C9 witness: a concrete 1501-character input is truncated before
categorization and the truncation note is appended on the approved path. -/
theorem c9_truncation_witness :
    (process_input (String.mk (List.replicate 1501 'a'))
        (fun _ => Except.ok "APPROPRIATE") (fun _ => Except.ok "resp")).catInput =
      String.mk ((String.mk (List.replicate 1501 'a')).data.take 1500) ++ "..." ∧
    (process_input (String.mk (List.replicate 1501 'a'))
        (fun _ => Except.ok "APPROPRIATE") (fun _ => Except.ok "resp")).response =
      "resp" ++ truncationNote (String.mk (List.replicate 1501 'a')).length := by
  have hlen : 1500 < (String.mk (List.replicate 1501 'a')).length := by
    have h1 : (String.mk (List.replicate 1501 'a')).length = 1501 := by
      show (List.replicate 1501 'a').length = 1501
      rw [List.length_replicate]
    omega
  have h := (c9_truncation (String.mk (List.replicate 1501 'a'))
    (fun _ => Except.ok "APPROPRIATE") (fun _ => Except.ok "resp")).2 hlen
  exact ⟨h.1, h.2 "APPROPRIATE" "resp" rfl (by decide) rfl⟩
